import Mathlib

/-!
Verification of the Planville chatbot service (`main.py`).

The service is a single FastAPI application with two endpoints:
`POST /chat` and `GET /healthz`.  The `/chat` handler filters the
incoming message through a keyword-based intent gate, assembles a
context string from a retrieval collaborator (`query_index`) with a
scraping fallback (`get_scraped_context`), composes a prompt, sends it
to a hosted completion API, and returns a `\x7breply: string\x7d` body.

The embedding below is shallow: the two collaborators and the
completion API are modelled as an explicit environment of functions
returning `Except String`, so that a raised exception becomes an
`error` value; the handler is a pure function of that environment and
the request, returning the HTTP response together with a trace of the
external calls it made.
-/

/-- Substring machinery: `beginsWith needle hay` is true when `needle`
is a prefix of `hay` (character lists). -/
def beginsWith : List Char → List Char → Bool
  | [], _ => true
  | _ :: _, [] => false
  | a :: as, b :: bs => (a == b) && beginsWith as bs

/-- `containsSub needle hay` is true when `needle` occurs contiguously
inside `hay`; this is the meaning of the Python substring test
`needle in hay`. -/
def containsSub (needle : List Char) : List Char → Bool
  | [] => needle.isEmpty
  | b :: bs => beginsWith needle (b :: bs) || containsSub needle bs

/-- Translation of the Python join `sep.join(docs)` (left fold putting
the separator between consecutive elements; empty list gives `""`). -/
def joinWith (sep : String) : List String → String
  | [] => ""
  | d :: ds => ds.foldl (fun acc x => acc ++ sep ++ x) d

/-- The newline-join the spec describes: elements in order, a single
newline between consecutive elements, empty sequence to empty string.
Stated from the words of the spec, to be compared with `joinWith`. -/
def specNewlineJoin : List String → String
  | [] => ""
  | [d] => d
  | d :: ds => d ++ "\n" ++ specNewlineJoin ds

/-- `ChatRequest` from `main.py`: `message: str`, `lang: str = "de"`. -/
structure ChatRequest where
  message : String
  lang : String := "de"
deriving Repr, DecidableEq

/-- The HTTP response of the `/chat` endpoint: FastAPI returns the
dictionary `\x7breply: ...\x7d` with status 200. -/
structure HttpResponse where
  status : Nat
  reply : String
deriving Repr, DecidableEq

/-- The message object of a completion-API choice; `content` may be
null (`none`). -/
structure ApiMessage where
  content : Option String
deriving Repr, DecidableEq

/-- One choice of a completion-API response. -/
structure ApiChoice where
  message : ApiMessage
deriving Repr, DecidableEq

/-- A completion-API response: a list of choices. -/
structure CompletionResponse where
  choices : List ApiChoice
deriving Repr, DecidableEq

/-- The environment of external collaborators of the handler.  Each is
a function of the argument the handler passes; a raised exception is
modelled as `Except.error` carrying the exception text. -/
structure Env where
  query_index : String → Except String (List String)
  get_scraped_context : String → Except String (List String)
  completions_create : String → Except String CompletionResponse

/-- Trace of the external calls a handler run performed, and the
context string it assembled (when it reached that point). -/
structure Trace where
  queryIndexCalls : List String
  scrapeCalls : List String
  completionCalls : List String
  contextUsed : Option String
deriving Repr, DecidableEq

/-- The trace of the rejection path: no external call at all. -/
def Trace.noCalls : Trace := ⟨[], [], [], none⟩

/-- `VALID_KEYWORDS` from `main.py`. -/
def VALID_KEYWORDS : List String :=
  ["photovoltaik", "photovoltaics", "dach", "roof",
   "wärmepumpe", "heat pump", "klimaanlage", "air conditioner",
   "beratung", "consultation", "angebot", "quote",
   "kontakt", "contact", "termin", "appointment", "montage", "installation"]

/-- The lower-cased form of a string (Python `message.lower()`),
computed character by character. -/
def pyLower (s : String) : String := ⟨s.data.map Char.toLower⟩

/-- Python `text.strip()`: drop leading and trailing whitespace. -/
def pyStrip (s : String) : String :=
  ⟨((s.data.dropWhile Char.isWhitespace).reverse.dropWhile Char.isWhitespace).reverse⟩

/-- `is_valid_intent` from `main.py`: lower-case the message, accept
iff some keyword is a substring. -/
def is_valid_intent (message : String) : Bool :=
  let msg := pyLower message
  VALID_KEYWORDS.any (fun keyword => containsSub keyword.data msg.data)

/-- The German rejection message (`fallback_msg["de"]`). -/
def fallback_msg_de : String :=
  "Ich kann nur Fragen zu Planville Dienstleistungen beantworten. " ++
  "Bitte kontaktieren Sie uns direkt unter: https://planville.de/kontakt"

/-- The English rejection message (`fallback_msg["en"]`). -/
def fallback_msg_en : String :=
  "I can only answer questions related to Planville services. " ++
  "Please contact us directly here: https://planville.de/kontakt"

/-- `fallback_msg.get(request.lang, fallback_msg["de"])`: look the
language up among the two keys of the literal dictionary, defaulting
to the German text. -/
def fallback_msg_get (lang : String) : String :=
  if lang = "de" then fallback_msg_de
  else if lang = "en" then fallback_msg_en
  else fallback_msg_de

/-- The static fallback returned when the model reply is empty after
stripping (lines 96 to 102 of `main.py`); a fixed German text. -/
def empty_fallback : String :=
  "Entschuldigung, ich habe leider keine passende Information zu Ihrer Anfrage.\n\n" ++
  "📞 Kontaktieren Sie unser Team direkt:\n" ++
  "👉 https://planville.de/kontakt"

/-- The generic failure reply of the `except` branch (lines 106 to 113
of `main.py`); a fixed German text. -/
def error_reply : String :=
  "Es ist ein Fehler aufgetreten. Bitte versuchen Sie es später erneut " ++
  "oder kontaktieren Sie uns direkt.\n\n➡️ https://planville.de/kontakt"

/-- The f-string prompt of lines 74 to 83 of `main.py`. -/
def mkPrompt (message context_text : String) : String :=
  "\nDu bist ein professioneller Kundenservice-Assistent von Planville GmbH.\n" ++
  "Antworte bitte höflich, direkt und hilfreich basierend auf dem folgenden Kontext.\n\n" ++
  "🔎 Frage:\n" ++ message ++ "\n\n📄 Kontext:\n" ++ context_text ++ "\n"

/-- Extraction `response.choices[0].message.content.strip()` of line 93:
an empty choice list raises (IndexError), a null content raises
(AttributeError); otherwise the stripped text is produced. -/
def extract_reply (response : CompletionResponse) : Except String String :=
  match response.choices with
  | [] => .error "IndexError: list index out of range"
  | choice :: _ =>
    match choice.message.content with
    | none => .error "AttributeError: NoneType has no attribute strip"
    | some text => .ok (pyStrip text)

/-- The trace of a run that reached the completion call. -/
def mkTrace (qi sc : List String) (message : String) (context_docs : List String) : Trace :=
  ⟨qi, sc, [mkPrompt message (joinWith "\n" context_docs)],
   some (joinWith "\n" context_docs)⟩

/-- Lines 71 to 113 of `main.py`: join the context documents, build the
prompt, call the completion API, extract and strip the reply, fall back
to the static text when it is empty; any `Except.error` of the
completion call or of the extraction is caught by the `except` branch
and converted to `error_reply`. -/
def chatWithContext (env : Env) (request : ChatRequest) (context_docs : List String)
    (qi sc : List String) : HttpResponse × Trace :=
  match env.completions_create (mkPrompt request.message (joinWith "\n" context_docs)) with
  | .error _ =>
      ({ status := 200, reply := error_reply }, mkTrace qi sc request.message context_docs)
  | .ok response =>
      match extract_reply response with
      | .error _ =>
          ({ status := 200, reply := error_reply }, mkTrace qi sc request.message context_docs)
      | .ok reply_text =>
          if reply_text = "" then
            ({ status := 200, reply := empty_fallback }, mkTrace qi sc request.message context_docs)
          else
            ({ status := 200, reply := reply_text }, mkTrace qi sc request.message context_docs)

/-- The `POST /chat` handler of `main.py` (lines 47 to 113).  The
intent gate rejects with the localized static message and no external
call; otherwise the retrieval collaborator is queried, the scraping
collaborator is used as fallback when retrieval is empty, and the
completion path runs; every `Except.error` of a collaborator is caught
by the `except` branch and converted to `error_reply`. -/
def chat (env : Env) (request : ChatRequest) : HttpResponse × Trace :=
  if !is_valid_intent request.message then
    ({ status := 200, reply := fallback_msg_get request.lang }, Trace.noCalls)
  else
    match env.query_index request.message with
    | .error _ =>
        ({ status := 200, reply := error_reply },
         ⟨[request.message], [], [], none⟩)
    | .ok context_docs =>
        if context_docs.isEmpty then
          match env.get_scraped_context request.message with
          | .error _ =>
              ({ status := 200, reply := error_reply },
               ⟨[request.message], [request.message], [], none⟩)
          | .ok scraped =>
              chatWithContext env request scraped [request.message] [request.message]
        else
          chatWithContext env request context_docs [request.message] []

/-- The body returned by `GET /healthz`. -/
structure HealthBody where
  status : String
deriving Repr, DecidableEq

/-- `health_check` from `main.py` (lines 116 to 118). -/
def health_check : HealthBody := { status := "ok" }

/-! ### Helper lemmas -/

theorem beginsWith_iff (n : List Char) : ∀ h : List Char,
    beginsWith n h = true ↔ ∃ rest, h = n ++ rest := by
  induction n with
  | nil => intro h; simp [beginsWith]
  | cons a as ih =>
    intro h
    cases h with
    | nil =>
      simp [beginsWith]
    | cons b bs =>
      simp only [beginsWith, Bool.and_eq_true, beq_iff_eq, ih, List.cons_append,
        List.cons.injEq]
      constructor
      · rintro ⟨rfl, rest, rfl⟩
        exact ⟨rest, rfl, rfl⟩
      · rintro ⟨rest, rfl, rfl⟩
        exact ⟨rfl, rest, rfl⟩

theorem containsSub_iff (n : List Char) : ∀ h : List Char,
    containsSub n h = true ↔ ∃ pre post, h = pre ++ n ++ post := by
  intro h
  induction h with
  | nil =>
    constructor
    · intro hc
      have hn : n = [] := by
        cases n with
        | nil => rfl
        | cons a as => simp [containsSub, List.isEmpty] at hc
      exact ⟨[], [], by simp [hn]⟩
    · rintro ⟨pre, post, hp⟩
      have h0 : pre ++ n ++ post = [] := hp.symm
      have hn : n = [] := (List.append_eq_nil.mp (List.append_eq_nil.mp h0).1).2
      simp [containsSub, hn, List.isEmpty]
  | cons b bs ih =>
    simp only [containsSub, Bool.or_eq_true, beginsWith_iff, ih]
    constructor
    · rintro (⟨rest, hr⟩ | ⟨pre, post, hp⟩)
      · exact ⟨[], rest, by simpa using hr⟩
      · exact ⟨b :: pre, post, by simp [hp]⟩
    · rintro ⟨pre, post, hp⟩
      cases pre with
      | nil => exact Or.inl ⟨post, by simpa using hp⟩
      | cons p ps =>
        simp only [List.cons_append, List.cons.injEq] at hp
        exact Or.inr ⟨ps, post, hp.2⟩

/-- The trailing part of a newline join: separator before each element. -/
def tailJoin : List String → String
  | [] => ""
  | d :: ds => "\n" ++ d ++ tailJoin ds

theorem foldl_tailJoin (ds : List String) : ∀ acc : String,
    ds.foldl (fun a x => a ++ "\n" ++ x) acc = acc ++ tailJoin ds := by
  induction ds with
  | nil =>
    intro acc
    apply String.ext
    simp [tailJoin, String.data_append]
  | cons d ds ih =>
    intro acc
    simp only [List.foldl_cons, tailJoin, ih]
    apply String.ext
    simp [String.data_append, List.append_assoc]

theorem cons_tailJoin (ds : List String) : ∀ d : String,
    d ++ tailJoin ds = specNewlineJoin (d :: ds) := by
  induction ds with
  | nil =>
    intro d
    apply String.ext
    simp [tailJoin, specNewlineJoin, String.data_append]
  | cons e es ih =>
    intro d
    simp only [specNewlineJoin, tailJoin, ← ih e]
    apply String.ext
    simp [String.data_append, List.append_assoc]

theorem joinWith_newline_eq_spec (ds : List String) :
    joinWith "\n" ds = specNewlineJoin ds := by
  cases ds with
  | nil => rfl
  | cons d ds =>
    simp only [joinWith, foldl_tailJoin, cons_tailJoin]

theorem isEmpty_false_of_ne {α : Type} {l : List α} (h : l ≠ []) :
    l.isEmpty = false := by
  cases l with
  | nil => exact absurd rfl h
  | cons a as => rfl

theorem chatWithContext_snd (env : Env) (request : ChatRequest)
    (docs qi sc : List String) :
    (chatWithContext env request docs qi sc).2 = mkTrace qi sc request.message docs := by
  unfold chatWithContext
  split
  · rfl
  · split
    · rfl
    · split <;> rfl

theorem chatWithContext_status (env : Env) (request : ChatRequest)
    (docs qi sc : List String) :
    (chatWithContext env request docs qi sc).1.status = 200 := by
  unfold chatWithContext
  split
  · rfl
  · split
    · rfl
    · split <;> rfl

theorem chatWithContext_reply_ne (env : Env) (request : ChatRequest)
    (docs qi sc : List String) :
    (chatWithContext env request docs qi sc).1.reply ≠ "" := by
  unfold chatWithContext
  split
  · show error_reply ≠ ""
    decide
  · split
    · show error_reply ≠ ""
      decide
    · split
      · show empty_fallback ≠ ""
        decide
      · rename_i h
        exact h

theorem chatWithContext_reply_of_create_error (env : Env) (request : ChatRequest)
    (docs qi sc : List String) (e : String)
    (hc : env.completions_create (mkPrompt request.message (joinWith "\n" docs)) =
      .error e) :
    (chatWithContext env request docs qi sc).1.reply = error_reply := by
  unfold chatWithContext
  rw [hc]

theorem chatWithContext_reply_of_extract_error (env : Env) (request : ChatRequest)
    (docs qi sc : List String) (resp : CompletionResponse) (e : String)
    (hc : env.completions_create (mkPrompt request.message (joinWith "\n" docs)) =
      .ok resp)
    (he : extract_reply resp = .error e) :
    (chatWithContext env request docs qi sc).1.reply = error_reply := by
  unfold chatWithContext
  rw [hc]
  simp only [he]

theorem chat_of_invalid (env : Env) (request : ChatRequest)
    (h : is_valid_intent request.message = false) :
    chat env request =
      ({ status := 200, reply := fallback_msg_get request.lang }, Trace.noCalls) := by
  unfold chat
  rw [h]
  rfl

theorem chat_of_query_error (env : Env) (request : ChatRequest) (e : String)
    (h : is_valid_intent request.message = true)
    (hq : env.query_index request.message = .error e) :
    chat env request =
      ({ status := 200, reply := error_reply }, ⟨[request.message], [], [], none⟩) := by
  unfold chat
  rw [h]
  simp only [hq, Bool.not_true, Bool.false_eq_true, if_false]

theorem chat_of_query_ok_ne (env : Env) (request : ChatRequest) (docs : List String)
    (h : is_valid_intent request.message = true)
    (hq : env.query_index request.message = .ok docs)
    (hne : docs.isEmpty = false) :
    chat env request = chatWithContext env request docs [request.message] [] := by
  unfold chat
  rw [h]
  simp only [hq, hne, Bool.not_true, Bool.false_eq_true, if_false]

theorem chat_of_query_empty_scrape_error (env : Env) (request : ChatRequest) (e : String)
    (h : is_valid_intent request.message = true)
    (hq : env.query_index request.message = .ok [])
    (hs : env.get_scraped_context request.message = .error e) :
    chat env request =
      ({ status := 200, reply := error_reply },
       ⟨[request.message], [request.message], [], none⟩) := by
  unfold chat
  rw [h]
  simp only [hq, hs, Bool.not_true, Bool.false_eq_true, if_false, List.isEmpty_nil,
    if_true]

theorem chat_of_query_empty_scrape_ok (env : Env) (request : ChatRequest)
    (scraped : List String)
    (h : is_valid_intent request.message = true)
    (hq : env.query_index request.message = .ok [])
    (hs : env.get_scraped_context request.message = .ok scraped) :
    chat env request =
      chatWithContext env request scraped [request.message] [request.message] := by
  unfold chat
  rw [h]
  simp only [hq, hs, Bool.not_true, Bool.false_eq_true, if_false, List.isEmpty_nil,
    if_true]

theorem fallback_msg_get_eq (lang : String) :
    fallback_msg_get lang =
      if lang = "en" then fallback_msg_en else fallback_msg_de := by
  unfold fallback_msg_get
  by_cases hde : lang = "de"
  · subst hde
    decide
  · rw [if_neg hde]

theorem fallback_msg_get_ne (lang : String) : fallback_msg_get lang ≠ "" := by
  rw [fallback_msg_get_eq]
  split
  · decide
  · decide

theorem chat_status_200 (env : Env) (request : ChatRequest) :
    (chat env request).1.status = 200 := by
  unfold chat
  split
  · rfl
  · split
    · rfl
    · split
      · split
        · rfl
        · exact chatWithContext_status env request _ _ _
      · exact chatWithContext_status env request _ _ _

theorem chat_reply_ne (env : Env) (request : ChatRequest) :
    (chat env request).1.reply ≠ "" := by
  unfold chat
  split
  · exact fallback_msg_get_ne request.lang
  · split
    · show error_reply ≠ ""
      decide
    · split
      · split
        · show error_reply ≠ ""
          decide
        · exact chatWithContext_reply_ne env request _ _ _
      · exact chatWithContext_reply_ne env request _ _ _

/-! ### Concrete environments used by the witnesses -/

/-- Retrieval returns one document, the completion API answers. -/
def envHappy : Env :=
  { query_index := fun _ => .ok ["Doc1"],
    get_scraped_context := fun _ => .ok [],
    completions_create := fun _ => .ok ⟨[⟨⟨some "Hallo"⟩⟩]⟩ }

/-- The retrieval collaborator raises. -/
def envQueryError : Env :=
  { query_index := fun _ => .error "boom",
    get_scraped_context := fun _ => .ok [],
    completions_create := fun _ => .ok ⟨[⟨⟨some "Hallo"⟩⟩]⟩ }

/-- Both collaborators return empty sequences. -/
def envAllEmpty : Env :=
  { query_index := fun _ => .ok [],
    get_scraped_context := fun _ => .ok [],
    completions_create := fun _ => .ok ⟨[⟨⟨some "Hallo"⟩⟩]⟩ }

/-- The completion API returns a response with no choices. -/
def envNoChoices : Env :=
  { query_index := fun _ => .ok ["Doc1"],
    get_scraped_context := fun _ => .ok [],
    completions_create := fun _ => .ok ⟨[]⟩ }

/-- The completion API returns a whitespace-only message. -/
def envWhitespaceReply : Env :=
  { query_index := fun _ => .ok ["Doc1"],
    get_scraped_context := fun _ => .ok [],
    completions_create := fun _ => .ok ⟨[⟨⟨some "   "⟩⟩]⟩ }

/-! ### The claims -/

/-- Claim C1: for every environment of collaborators and every request,
the `/chat` handler returns a body whose `reply` is a non-empty string
and HTTP status 200, on every path: intent rejection, successful
completion, empty or whitespace-only model output, and any exception of
a collaborator or of the completion call. -/
theorem C1_chat_always_200_nonempty_reply (env : Env) (request : ChatRequest) :
    (chat env request).1.status = 200 ∧ (chat env request).1.reply ≠ "" :=
  ⟨chat_status_200 env request, chat_reply_ne env request⟩

/-- Claim C2: `is_valid_intent` returns true iff some configured
keyword occurs as a substring of the lower-cased message (so matching
is case-insensitive in the message and a keyword inside an unrelated
word still matches); for the empty message it returns false. -/
theorem C2_is_valid_intent_iff_keyword_substring (message : String) :
    (is_valid_intent message = true ↔
      ∃ kw ∈ VALID_KEYWORDS, ∃ pre post,
        (pyLower message).data = pre ++ kw.data ++ post) ∧
    is_valid_intent "" = false := by
  constructor
  · simp only [is_valid_intent, List.any_eq_true, containsSub_iff]
  · decide

/-- Claim C3: a request that fails the intent gate is answered
immediately with the static fallback selected by `lang` (English for
"en", German for "de" and for every other value), and no call is made
to retrieval, scraping, or the completion API. -/
theorem C3_rejection_is_localized_and_terminal (env : Env) (request : ChatRequest)
    (h : is_valid_intent request.message = false) :
    (chat env request).1.reply =
      (if request.lang = "en" then fallback_msg_en else fallback_msg_de) ∧
    (chat env request).2.queryIndexCalls = [] ∧
    (chat env request).2.scrapeCalls = [] ∧
    (chat env request).2.completionCalls = [] := by
  rw [chat_of_invalid env request h]
  exact ⟨fallback_msg_get_eq request.lang, rfl, rfl, rfl⟩

/-- Witness for C3: the request "hello" (no keyword) with the
unrecognized language "fr" gets the German fallback and no calls. -/
theorem C3_rejection_is_localized_and_terminal_witness :
    is_valid_intent "hello" = false ∧
    ((chat envHappy ⟨"hello", "fr"⟩).1.reply =
      (if ("fr" : String) = "en" then fallback_msg_en else fallback_msg_de) ∧
     (chat envHappy ⟨"hello", "fr"⟩).2.queryIndexCalls = [] ∧
     (chat envHappy ⟨"hello", "fr"⟩).2.scrapeCalls = [] ∧
     (chat envHappy ⟨"hello", "fr"⟩).2.completionCalls = []) :=
  ⟨by decide, C3_rejection_is_localized_and_terminal envHappy ⟨"hello", "fr"⟩ (by decide)⟩

/-- Claim C4: on the accepted path the scraping collaborator is invoked
iff retrieval returned the empty sequence, and then with exactly the
query string that retrieval received (the request message). -/
theorem C4_scrape_iff_retrieval_empty (env : Env) (request : ChatRequest)
    (docs : List String)
    (h : is_valid_intent request.message = true)
    (hq : env.query_index request.message = .ok docs) :
    (chat env request).2.queryIndexCalls = [request.message] ∧
    (chat env request).2.scrapeCalls =
      (if docs = [] then [request.message] else []) := by
  by_cases hd : docs = []
  · subst hd
    rw [if_pos rfl]
    cases hs : env.get_scraped_context request.message with
    | error e =>
      rw [chat_of_query_empty_scrape_error env request e h hq hs]
      exact ⟨rfl, rfl⟩
    | ok scraped =>
      rw [chat_of_query_empty_scrape_ok env request scraped h hq hs,
        chatWithContext_snd]
      exact ⟨rfl, rfl⟩
  · rw [if_neg hd, chat_of_query_ok_ne env request docs h hq (isEmpty_false_of_ne hd),
      chatWithContext_snd]
    exact ⟨rfl, rfl⟩

/-- Witness for C4: retrieval returns a non-empty sequence, so the
scraper is not called. -/
theorem C4_scrape_iff_retrieval_empty_witness :
    is_valid_intent "dach" = true ∧
    envHappy.query_index "dach" = .ok ["Doc1"] ∧
    ((chat envHappy ⟨"dach", "de"⟩).2.queryIndexCalls = ["dach"] ∧
     (chat envHappy ⟨"dach", "de"⟩).2.scrapeCalls =
       (if (["Doc1"] : List String) = [] then ["dach"] else [])) :=
  ⟨by decide, rfl,
    C4_scrape_iff_retrieval_empty envHappy ⟨"dach", "de"⟩ ["Doc1"] (by decide) rfl⟩

/-- Claim C5: the assembled context string is the elements of whichever
collaborator output was used, joined with single newlines in order; the
empty sequence yields the empty string. -/
theorem C5_context_is_newline_join (env : Env) (request : ChatRequest)
    (docs scraped : List String)
    (h : is_valid_intent request.message = true)
    (hq : env.query_index request.message = .ok docs)
    (hs : env.get_scraped_context request.message = .ok scraped) :
    (chat env request).2.contextUsed =
      some (specNewlineJoin (if docs = [] then scraped else docs)) ∧
    specNewlineJoin [] = "" := by
  refine ⟨?_, rfl⟩
  by_cases hd : docs = []
  · subst hd
    rw [if_pos rfl, chat_of_query_empty_scrape_ok env request scraped h hq hs,
      chatWithContext_snd]
    show some (joinWith "\n" scraped) = _
    rw [joinWith_newline_eq_spec]
  · rw [if_neg hd, chat_of_query_ok_ne env request docs h hq (isEmpty_false_of_ne hd),
      chatWithContext_snd]
    show some (joinWith "\n" docs) = _
    rw [joinWith_newline_eq_spec]

/-- Witness for C5 at a concrete run using the retrieval output. -/
theorem C5_context_is_newline_join_witness :
    is_valid_intent "dach" = true ∧
    envHappy.query_index "dach" = .ok ["Doc1"] ∧
    envHappy.get_scraped_context "dach" = .ok [] ∧
    ((chat envHappy ⟨"dach", "de"⟩).2.contextUsed =
      some (specNewlineJoin (if (["Doc1"] : List String) = [] then [] else ["Doc1"])) ∧
     specNewlineJoin [] = "") :=
  ⟨by decide, rfl, rfl,
    C5_context_is_newline_join envHappy ⟨"dach", "de"⟩ ["Doc1"] [] (by decide) rfl rfl⟩

/-- Claim C6: any exception of the retrieval collaborator, the scraping
collaborator, the completion call, or response parsing is caught inside
the handler and converted to the fixed generic failure reply, never
re-raised: in each failure case the handler still returns a value, with
status 200 and `error_reply`.  The completion-call and parsing cases
cover both ways of reaching them: documents from retrieval, or from
the scraper after retrieval returned the empty sequence. -/
theorem C6_exceptions_caught_and_converted (env : Env) (request : ChatRequest)
    (h : is_valid_intent request.message = true) :
    (∀ e, env.query_index request.message = .error e →
      (chat env request).1.reply = error_reply ∧ (chat env request).1.status = 200) ∧
    (∀ e, env.query_index request.message = .ok [] →
      env.get_scraped_context request.message = .error e →
      (chat env request).1.reply = error_reply ∧ (chat env request).1.status = 200) ∧
    (∀ docs e,
      ((env.query_index request.message = .ok docs ∧ docs ≠ []) ∨
       (env.query_index request.message = .ok [] ∧
        env.get_scraped_context request.message = .ok docs)) →
      env.completions_create (mkPrompt request.message (joinWith "\n" docs)) =
        .error e →
      (chat env request).1.reply = error_reply ∧ (chat env request).1.status = 200) ∧
    (∀ docs resp e,
      ((env.query_index request.message = .ok docs ∧ docs ≠ []) ∨
       (env.query_index request.message = .ok [] ∧
        env.get_scraped_context request.message = .ok docs)) →
      env.completions_create (mkPrompt request.message (joinWith "\n" docs)) =
        .ok resp →
      extract_reply resp = .error e →
      (chat env request).1.reply = error_reply ∧ (chat env request).1.status = 200) := by
  refine ⟨?_, ?_, ?_, ?_⟩
  · intro e hq
    rw [chat_of_query_error env request e h hq]
    exact ⟨rfl, rfl⟩
  · intro e hq hs
    rw [chat_of_query_empty_scrape_error env request e h hq hs]
    exact ⟨rfl, rfl⟩
  · intro docs e hdocs hc
    rcases hdocs with ⟨hq, hd⟩ | ⟨hq, hs⟩
    · rw [chat_of_query_ok_ne env request docs h hq (isEmpty_false_of_ne hd)]
      exact ⟨chatWithContext_reply_of_create_error env request docs [request.message] []
          e hc,
        chatWithContext_status env request docs [request.message] []⟩
    · rw [chat_of_query_empty_scrape_ok env request docs h hq hs]
      exact ⟨chatWithContext_reply_of_create_error env request docs [request.message]
          [request.message] e hc,
        chatWithContext_status env request docs [request.message] [request.message]⟩
  · intro docs resp e hdocs hc he
    rcases hdocs with ⟨hq, hd⟩ | ⟨hq, hs⟩
    · rw [chat_of_query_ok_ne env request docs h hq (isEmpty_false_of_ne hd)]
      exact ⟨chatWithContext_reply_of_extract_error env request docs [request.message] []
          resp e hc he,
        chatWithContext_status env request docs [request.message] []⟩
    · rw [chat_of_query_empty_scrape_ok env request docs h hq hs]
      exact ⟨chatWithContext_reply_of_extract_error env request docs [request.message]
          [request.message] resp e hc he,
        chatWithContext_status env request docs [request.message] [request.message]⟩

/-- Witness for C6: the retrieval collaborator raises and the caller
still receives the generic failure reply with status 200. -/
theorem C6_exceptions_caught_and_converted_witness :
    is_valid_intent "dach" = true ∧
    envQueryError.query_index "dach" = .error "boom" ∧
    ((chat envQueryError ⟨"dach", "de"⟩).1.reply = error_reply ∧
     (chat envQueryError ⟨"dach", "de"⟩).1.status = 200) :=
  ⟨by decide, rfl,
    (C6_exceptions_caught_and_converted envQueryError ⟨"dach", "de"⟩ (by decide)).1
      "boom" rfl⟩

/-- Counterexample to claim C7: with the model returning a
whitespace-only message and `lang = "en"`, the empty-output fallback
reply is the fixed German text `empty_fallback`, identical to the reply
for the unrecognized language "zz"; it is not an English variant (the
only English static text in the program is `fallback_msg_en`).  So this
static message is not selected by `lang`. -/
theorem C7_counterexample_empty_fallback_not_localized :
    (chat envWhitespaceReply ⟨"dach", "en"⟩).1.reply = empty_fallback ∧
    (chat envWhitespaceReply ⟨"dach", "en"⟩).1.reply =
      (chat envWhitespaceReply ⟨"dach", "zz"⟩).1.reply ∧
    empty_fallback ≠ fallback_msg_en :=
  ⟨by decide, by decide, by decide⟩

/-- Claim C7 (amended): only the rejection redirect is selected by
`lang` (English for "en", German for "de" and every other value); the
whole accepted path — including the empty-model-output fallback and the
generic failure reply — does not depend on `lang` at all, so those two
static messages are the same fixed German texts for every `lang`. -/
theorem C7_amended_only_rejection_localized (env : Env) (message l1 l2 : String) :
    (is_valid_intent message = true →
      chat env ⟨message, l1⟩ = chat env ⟨message, l2⟩) ∧
    (is_valid_intent message = false →
      (chat env ⟨message, l1⟩).1.reply =
        (if l1 = "en" then fallback_msg_en else fallback_msg_de)) := by
  constructor
  · intro h
    cases hq : env.query_index message with
    | error e =>
      rw [chat_of_query_error env ⟨message, l1⟩ e h hq,
        chat_of_query_error env ⟨message, l2⟩ e h hq]
    | ok docs =>
      by_cases hd : docs = []
      · subst hd
        cases hs : env.get_scraped_context message with
        | error e =>
          rw [chat_of_query_empty_scrape_error env ⟨message, l1⟩ e h hq hs,
            chat_of_query_empty_scrape_error env ⟨message, l2⟩ e h hq hs]
        | ok scraped =>
          rw [chat_of_query_empty_scrape_ok env ⟨message, l1⟩ scraped h hq hs,
            chat_of_query_empty_scrape_ok env ⟨message, l2⟩ scraped h hq hs]
          rfl
      · rw [chat_of_query_ok_ne env ⟨message, l1⟩ docs h hq (isEmpty_false_of_ne hd),
          chat_of_query_ok_ne env ⟨message, l2⟩ docs h hq (isEmpty_false_of_ne hd)]
        rfl
  · intro h
    rw [chat_of_invalid env ⟨message, l1⟩ h]
    exact fallback_msg_get_eq l1

/-- Witness for the amended C7: the empty-output run gives the same
response for "en" as for "de". -/
theorem C7_amended_only_rejection_localized_witness :
    is_valid_intent "dach" = true ∧
    chat envWhitespaceReply ⟨"dach", "en"⟩ = chat envWhitespaceReply ⟨"dach", "de"⟩ :=
  ⟨by decide,
    (C7_amended_only_rejection_localized envWhitespaceReply "dach" "en" "de").1
      (by decide)⟩

/-- Claim C8: when the intent gate accepts and both collaborators
return empty sequences, the context string is empty, the completion
call is still made with the empty context embedded in the prompt, and
the status is 200. -/
theorem C8_empty_context_still_completes (env : Env) (request : ChatRequest)
    (h : is_valid_intent request.message = true)
    (hq : env.query_index request.message = .ok [])
    (hs : env.get_scraped_context request.message = .ok []) :
    (chat env request).2.contextUsed = some "" ∧
    (chat env request).2.completionCalls = [mkPrompt request.message ""] ∧
    (chat env request).1.status = 200 := by
  rw [chat_of_query_empty_scrape_ok env request [] h hq hs]
  refine ⟨?_, ?_,
    chatWithContext_status env request [] [request.message] [request.message]⟩
  · rw [chatWithContext_snd]
    rfl
  · rw [chatWithContext_snd]
    rfl

/-- Witness for C8 at a concrete request. -/
theorem C8_empty_context_still_completes_witness :
    is_valid_intent "dach" = true ∧
    envAllEmpty.query_index "dach" = .ok [] ∧
    envAllEmpty.get_scraped_context "dach" = .ok [] ∧
    ((chat envAllEmpty ⟨"dach", "de"⟩).2.contextUsed = some "" ∧
     (chat envAllEmpty ⟨"dach", "de"⟩).2.completionCalls = [mkPrompt "dach" ""] ∧
     (chat envAllEmpty ⟨"dach", "de"⟩).1.status = 200) :=
  ⟨by decide, rfl, rfl,
    C8_empty_context_still_completes envAllEmpty ⟨"dach", "de"⟩ (by decide) rfl rfl⟩

/-- Claim C9: when the completion response has no choices, or the first
choice has null content, extraction raises, the handler top-level
except branch catches it, and the reply is the generic failure text —
not the empty-output fallback.  This holds on any run reaching the
extraction, whether the documents came from retrieval or from the
scraper after retrieval returned the empty sequence. -/
theorem C9_extraction_failure_gives_error_reply (env : Env) (request : ChatRequest)
    (docs : List String) (resp : CompletionResponse)
    (h : is_valid_intent request.message = true)
    (hdocs : (env.query_index request.message = .ok docs ∧ docs ≠ []) ∨
      (env.query_index request.message = .ok [] ∧
       env.get_scraped_context request.message = .ok docs))
    (hc : env.completions_create (mkPrompt request.message (joinWith "\n" docs)) =
      .ok resp)
    (hresp : resp.choices = [] ∨
      ∃ c cs, resp.choices = c :: cs ∧ c.message.content = none) :
    (∃ e, extract_reply resp = .error e) ∧
    (chat env request).1.reply = error_reply ∧
    (chat env request).1.reply ≠ empty_fallback := by
  have hextract : ∃ e, extract_reply resp = .error e := by
    rcases hresp with hnil | ⟨c, cs, hcons, hnone⟩
    · refine ⟨"IndexError: list index out of range", ?_⟩
      simp only [extract_reply, hnil]
    · refine ⟨"AttributeError: NoneType has no attribute strip", ?_⟩
      simp only [extract_reply, hcons, hnone]
  obtain ⟨e, he⟩ := hextract
  rcases hdocs with ⟨hq, hd⟩ | ⟨hq, hs⟩
  · rw [chat_of_query_ok_ne env request docs h hq (isEmpty_false_of_ne hd)]
    refine ⟨⟨e, he⟩,
      chatWithContext_reply_of_extract_error env request docs [request.message] []
        resp e hc he, ?_⟩
    rw [chatWithContext_reply_of_extract_error env request docs [request.message] []
        resp e hc he]
    decide
  · rw [chat_of_query_empty_scrape_ok env request docs h hq hs]
    refine ⟨⟨e, he⟩,
      chatWithContext_reply_of_extract_error env request docs [request.message]
        [request.message] resp e hc he, ?_⟩
    rw [chatWithContext_reply_of_extract_error env request docs [request.message]
        [request.message] resp e hc he]
    decide

/-- Witness for C9: the completion API returns zero choices. -/
theorem C9_extraction_failure_gives_error_reply_witness :
    is_valid_intent "dach" = true ∧
    envNoChoices.query_index "dach" = .ok ["Doc1"] ∧
    envNoChoices.completions_create (mkPrompt "dach" (joinWith "\n" ["Doc1"])) =
      .ok ⟨[]⟩ ∧
    ((∃ e, extract_reply ⟨[]⟩ = .error e) ∧
     (chat envNoChoices ⟨"dach", "de"⟩).1.reply = error_reply ∧
     (chat envNoChoices ⟨"dach", "de"⟩).1.reply ≠ empty_fallback) :=
  ⟨by decide, rfl, rfl,
    C9_extraction_failure_gives_error_reply envNoChoices ⟨"dach", "de"⟩ ["Doc1"] ⟨[]⟩
      (by decide) (Or.inl ⟨rfl, by decide⟩) rfl (Or.inl rfl)⟩

/-- Claim C10: `GET /healthz` always returns the body with status "ok",
independent of any collaborator. -/
theorem C10_healthz_always_ok : health_check = { status := "ok" } := rfl
